import Mathlib

/-!
Verification of the RAG chat application in `app.py`.

The application is pure orchestration around a remote service: it holds a
per-session state (a chat history and three optional opaque handles) and
reacts to UI events (setup, chat input, clear chat).  We embed the session
state and each handler as Lean functions.  The remote service is modelled by
scripted environments (`SetupEnv`, `TurnEnv`): each remote call the code
makes is one field of the environment, returning `Except String _` — an
`error` models a raised exception whose message is the string, an `ok`
models the value the service returned.

The unbounded polling loop in `get_assistant_response` is embedded with an
explicit fuel parameter: `Except.ok none` means the fuel ran out while the
status was still active, which models divergence of the source loop.
-/

/-- One entry of `st.session_state.messages`: a dict with keys role and
content, where role is user or assistant. -/
structure ChatTurn where
  role : String
  content : String
deriving DecidableEq, Repr

/-- The session state initialised at the top of `app.py` (lines 16-23):
the chat history plus the three optional opaque handles.  `none` is the
Python `None` each handle starts as. -/
structure SessionState where
  messages : List ChatTurn
  assistant_id : Option String
  thread_id : Option String
  vector_store_id : Option String
deriving DecidableEq, Repr

/-- The initial session state: empty history, all three handles unset. -/
def initState : SessionState :=
  { messages := [], assistant_id := none, thread_id := none,
    vector_store_id := none }

/-- Python truthiness of a string: the empty string is falsy. -/
def strTruthy (s : String) : Bool := !s.isEmpty

/-- Python truthiness of an optional string, as used by
`if st.session_state.assistant_id` and the setup handler: `None` and the
empty string are falsy. -/
def optTruthy : Option String → Bool
  | none => false
  | some s => strTruthy s

/-- The loop guard of line 131: `run.status in ["queued", "in_progress"]`. -/
def isActiveStatus (s : String) : Bool :=
  s == "queued" || s == "in_progress"

/-- The polling loop of `get_assistant_response` (lines 131-136).
`fetch i` scripts the result of the i-th call to `runs.retrieve` (an
`error` is a raised exception).  `s` is the current `run.status`, `i` the
number of retrieves issued so far.  The source loop is unbounded, so the
embedding takes fuel: `ok none` means the fuel was exhausted while the
status was still active, i.e. the source loop is still running after that
many retrieves.  On exit it returns the final status together with the
total number of retrieves issued. -/
def pollRun (fetch : Nat → Except String String) :
    Nat → String → Nat → Except String (Option (String × Nat))
  | fuel + 1, s, i =>
    if isActiveStatus s then
      match fetch i with
      | Except.error e => Except.error e
      | Except.ok s2 => pollRun fetch fuel s2 (i + 1)
    else
      Except.ok (some (s, i))
  | 0, s, i =>
    if isActiveStatus s then Except.ok none else Except.ok (some (s, i))

/-- The run status is delivered once by `runs.create` and then once per
`runs.retrieve`, so a poll that issued `i` retrieves has observed `1 + i`
statuses in total. -/
def statusFetches (retrieves : Nat) : Nat := 1 + retrieves

/-- Scripted remote behaviour for one execution of
`get_assistant_response`: the message append (line 117), the run creation
returning the initial status (line 125), the i-th status retrieve
(line 133), and the message listing (line 140) giving the text of each
remote message, most recent first (each message represented by the text of
its first content block, the only part line 144 reads). -/
structure TurnEnv where
  msgCreate : Except String Unit
  runCreate : Except String String
  retrieve : Nat → Except String String
  listMessages : Except String (List String)

/-- The error message shown by the except clause of
`get_assistant_response` (line 150). -/
def errGettingResponse (e : String) : String :=
  "Error getting response: " ++ e

/-- The error message shown when the run ends in a non-completed terminal
status (line 146); it embeds that status. -/
def runFailedMsg (s : String) : String :=
  "Run failed with status: " ++ s

/-- Result of one execution of `get_assistant_response`: the returned
`Optional[str]` and the errors surfaced via `st.error`, in order. -/
structure TurnResult where
  reply : Option String
  errors : List String
deriving DecidableEq, Repr

/-- Embedding of `get_assistant_response` (lines 113-151): append the user message,
start a run, poll while the status is queued or in_progress, then on
`completed` return the most recent remote message text; on any other
terminal status report it and return `None`; any exception is caught,
reported and yields `None`.  The outer `none` models divergence of the
polling loop (fuel exhausted while still active).  An empty remote message
list makes line 144 raise an IndexError, which the except clause catches. -/
def getAssistantResponse (env : TurnEnv) (fuel : Nat) : Option TurnResult :=
  match env.msgCreate with
  | Except.error e => some ⟨none, [errGettingResponse e]⟩
  | Except.ok _ =>
    match env.runCreate with
    | Except.error e => some ⟨none, [errGettingResponse e]⟩
    | Except.ok s0 =>
      match pollRun env.retrieve fuel s0 0 with
      | Except.error e => some ⟨none, [errGettingResponse e]⟩
      | Except.ok none => none
      | Except.ok (some (st, _)) =>
        if st == "completed" then
          match env.listMessages with
          | Except.error e => some ⟨none, [errGettingResponse e]⟩
          | Except.ok msgs =>
            match msgs.head? with
            | some t => some ⟨some t, []⟩
            | none => some ⟨none, [errGettingResponse "list index out of range"]⟩
        else
          some ⟨none, [runFailedMsg st]⟩

/-- The chat input handler (lines 198-213): append the user turn to the
history, run `get_assistant_response`, and append an assistant turn only
when the reply is truthy (Python `if response:` — `None` and the empty
string both fail it), otherwise surface the failure message.  Returns the
new history and the surfaced errors, or `none` when the turn diverges in
the polling loop. -/
def chatInputHandler (hist : List ChatTurn) (prompt : String)
    (env : TurnEnv) (fuel : Nat) : Option (List ChatTurn × List String) :=
  let hist1 := hist ++ [⟨"user", prompt⟩]
  match getAssistantResponse env fuel with
  | none => none
  | some r =>
    match r.reply with
    | some t =>
      if strTruthy t then
        some (hist1 ++ [⟨"assistant", t⟩], r.errors)
      else
        some (hist1, r.errors ++ ["Failed to get response from assistant"])
    | none =>
      some (hist1, r.errors ++ ["Failed to get response from assistant"])

/-- A scripted retrieve sequence: the i-th retrieve returns the i-th entry
of the list, and the script ends with an exception once exhausted. -/
def fetchOfList (l : List String) (i : Nat) : Except String String :=
  match l.get? i with
  | some s => Except.ok s
  | none => Except.error "script exhausted"

/-- The retrieve script of the specified polling scenario: after the
initial queued status from `runs.create`, the successive retrieves return
in_progress, in_progress, completed. -/
def scriptC1 : List String := ["in_progress", "in_progress", "completed"]

/-- Scripted remote behaviour for the setup pipeline and for clear chat:
vector store creation (line 51), the file upload batch (lines 61-69),
assistant creation (line 81) and thread creation (line 106).  Each `ok`
carries the opaque id the service returned; an `error` is a raised
exception. -/
structure SetupEnv where
  vsCreate : Except String String
  uploadBatch : Except String Unit
  assistantCreate : Except String String
  threadCreate : Except String String

/-- Embedding of `upload_files_to_vector_store` (lines 46-76): create the vector store,
upload the files, and only then store the handle in session state and
return it.  Any exception is caught, reported, and returns `None` with the
session state untouched — in particular a failure of the upload after the
vector store was created remotely still leaves the local handle unset.
Returns the new state, the returned `Optional[str]`, and the surfaced
errors. -/
def upload_files_to_vector_store (env : SetupEnv) (s : SessionState) :
    SessionState × Option String × List String :=
  match env.vsCreate with
  | Except.error e => (s, none, ["Error uploading files: " ++ e])
  | Except.ok vsid =>
    match env.uploadBatch with
    | Except.error e => (s, none, ["Error uploading files: " ++ e])
    | Except.ok _ =>
      ({ s with vector_store_id := some vsid }, some vsid, [])

/-- Embedding of `create_assistant` (lines 78-101): create the assistant, store its
handle, return it; on exception report and return `None` leaving the state
untouched.  (The Python function also forwards the vector store id to the
service inside the creation request; that request is the `assistantCreate`
script.) -/
def create_assistant (env : SetupEnv) (s : SessionState) :
    SessionState × Option String × List String :=
  match env.assistantCreate with
  | Except.error e => (s, none, ["Error creating assistant: " ++ e])
  | Except.ok aid =>
    ({ s with assistant_id := some aid }, some aid, [])

/-- Embedding of `create_thread` (lines 103-111): create a fresh thread, store its
handle, return it; on exception report and return `None` leaving the state
untouched. -/
def create_thread (env : SetupEnv) (s : SessionState) :
    SessionState × Option String × List String :=
  match env.threadCreate with
  | Except.error e => (s, none, ["Error creating thread: " ++ e])
  | Except.ok tid =>
    ({ s with thread_id := some tid }, some tid, [])

/-- The setup button handler (lines 166-186): run the three provisioning
steps in order, each guarded by Python truthiness of the previous result;
a falsy result stops the chain and surfaces the corresponding failure
message.  Returns the new state and the surfaced errors. -/
def setupHandler (env : SetupEnv) (s : SessionState) :
    SessionState × List String :=
  match upload_files_to_vector_store env s with
  | (s1, vsid, e1) =>
    if optTruthy vsid then
      match create_assistant env s1 with
      | (s2, aid, e2) =>
        if optTruthy aid then
          match create_thread env s2 with
          | (s3, tid, e3) =>
            if optTruthy tid then (s3, e1 ++ e2 ++ e3)
            else (s3, e1 ++ e2 ++ e3 ++ ["Failed to create conversation thread"])
        else (s2, e1 ++ e2 ++ ["Failed to create assistant"])
    else (s1, e1 ++ ["Failed to upload files"])

/-- The Clear Chat button handler (lines 216-220): empty the local history,
then call `create_thread` — on success the thread handle is replaced by the
fresh one, on exception the error is reported and the old handle stays. -/
def clearChatHandler (env : SetupEnv) (s : SessionState) : SessionState :=
  (create_thread env { s with messages := [] }).1

/-- The Clear Chat button handler together with the errors its
`create_thread` call surfaces via `st.error` (line 110): the resulting
session state is exactly `clearChatHandler`, and the error list is the one
the except clause of `create_thread` reports. -/
def clearChatResult (env : SetupEnv) (s : SessionState) :
    SessionState × List String :=
  match create_thread env { s with messages := [] } with
  | (s1, _, errs) => (s1, errs)

/-- The guard of line 189: the chat interface, and hence the chat input and
the Clear Chat button, is rendered only when both the assistant handle and
the thread handle are truthy. -/
def chatUIEnabled (s : SessionState) : Bool :=
  optTruthy s.assistant_id && optTruthy s.thread_id

/-- The status panel of lines 238-240: whether each of assistant, thread
and vector store is displayed as ready (Python truthiness of the stored
handle). -/
def statusPanel (s : SessionState) : Bool × Bool × Bool :=
  (optTruthy s.assistant_id, optTruthy s.thread_id, optTruthy s.vector_store_id)

/-- One UI event the application reacts to: a click of the setup button, a
submitted chat message, or a click of the Clear Chat button.  Each carries
the scripted remote behaviour of the calls it triggers. -/
inductive Op where
  | setup (env : SetupEnv)
  | chat (prompt : String) (env : TurnEnv) (fuel : Nat)
  | clear (env : SetupEnv)

/-- The effect of one UI event on the session state.  Chat and clear chat
are guarded by `chatUIEnabled` (line 189); a diverging chat turn yields no
observable successor state. -/
def step (s : SessionState) (op : Op) : SessionState :=
  match op with
  | Op.setup env => (setupHandler env s).1
  | Op.chat prompt env fuel =>
    if chatUIEnabled s then
      match chatInputHandler s.messages prompt env fuel with
      | some (h, _) => { s with messages := h }
      | none => s
    else s
  | Op.clear env =>
    if chatUIEnabled s then clearChatHandler env s else s

/-- A run of the application: the session state after a sequence of UI
events starting from the initial state. -/
def runApp (ops : List Op) : SessionState :=
  ops.foldl step initState

/-- The handle-ordering invariant: the set of set handles is a prefix of
the ordered triple (vector store, assistant, thread) — the assistant handle
is never set while the vector store handle is unset, and the thread handle
is never set while the assistant handle is unset. -/
def handlesOrdered (s : SessionState) : Prop :=
  (s.assistant_id.isSome → s.vector_store_id.isSome) ∧
    (s.thread_id.isSome → s.assistant_id.isSome)

/-- Truthiness of an id returned by a scripted service call: a call that
fails never stores a falsy id, and a call that succeeds stores a truthy id
exactly when the returned string is non-empty. -/
def exceptTruthy : Except String String → Bool
  | Except.ok v => strTruthy v
  | Except.error _ => true

/-- An operation whose scripted service calls only ever return non-empty
(truthy) ids — the realistic behaviour of the remote service, under which
the status panel readiness of a handle can never be revoked. -/
def opServiceIdsTruthy : Op → Bool
  | Op.setup env =>
    exceptTruthy env.vsCreate && exceptTruthy env.assistantCreate &&
      exceptTruthy env.threadCreate
  | Op.chat _ _ _ => true
  | Op.clear env => exceptTruthy env.threadCreate

/-- A turn whose run goes queued, then completed on the first retrieve, and
whose most recent remote message text is the empty string. -/
def envEmptyReply : TurnEnv :=
  ⟨Except.ok (), Except.ok "queued", fetchOfList ["completed"],
    Except.ok [""]⟩

/-- A turn whose run goes queued, then completed on the first retrieve, and
whose most recent remote message text is a non-empty answer. -/
def envGoodReply : TurnEnv :=
  ⟨Except.ok (), Except.ok "queued", fetchOfList ["completed"],
    Except.ok ["grounded answer", "earlier message"]⟩

/-- A turn whose run is created already in the terminal status failed. -/
def envFailedRun : TurnEnv :=
  ⟨Except.ok (), Except.ok "failed", fetchOfList [],
    Except.ok ["stale reply"]⟩

/-- A turn whose very first remote call, the message append, raises. -/
def envMsgCreateRaises : TurnEnv :=
  ⟨Except.error "connection reset", Except.ok "queued", fetchOfList [],
    Except.ok ["stale reply"]⟩

/-- A retrieve script that stays queued forever. -/
def fetchAllQueued (_i : Nat) : Except String String := Except.ok "queued"

/-- A setup run whose vector store creation raises (e.g. quota exceeded);
the later steps are scripted to succeed, but must never be reached. -/
def envVsCreateRaises : SetupEnv :=
  ⟨Except.error "quota exceeded", Except.ok (), Except.ok "asst_ok",
    Except.ok "thread_ok"⟩

/-- A setup environment whose thread creation raises. -/
def envThreadRaises : SetupEnv :=
  ⟨Except.ok "vs_ok", Except.ok (), Except.ok "asst_ok",
    Except.error "service unavailable"⟩

/-- A setup environment where every call succeeds with a fresh id. -/
def envAllOk : SetupEnv :=
  ⟨Except.ok "vs_new", Except.ok (), Except.ok "asst_new",
    Except.ok "thread_new"⟩

/-- A session state in which setup has fully succeeded and one exchange has
been recorded. -/
def sReady : SessionState :=
  { messages := [⟨"user", "hi"⟩, ⟨"assistant", "hello"⟩],
    assistant_id := some "asst_1", thread_id := some "thread_1",
    vector_store_id := some "vs_1" }

/-- A non-active status makes the loop guard fail at once: the poll exits
immediately with that status and no further retrieve, whatever the fuel. -/
theorem pollRun_inactive (fetch : Nat → Except String String) (s : String)
    (h : isActiveStatus s = false) (fuel i : Nat) :
    pollRun fetch fuel s i = Except.ok (some (s, i)) := by
  cases fuel <;> simp [pollRun, h]

/-- If every retrieve succeeds with an active status and the current status
is active, the poll exhausts any amount of fuel: the source loop never
terminates. -/
theorem pollRun_never_exits (fetch : Nat → Except String String)
    (hfetch : ∀ j, ∃ sj, fetch j = Except.ok sj ∧ isActiveStatus sj = true) :
    ∀ fuel s i, isActiveStatus s = true →
      pollRun fetch fuel s i = Except.ok none := by
  intro fuel
  induction fuel with
  | zero => intro s i h; simp [pollRun, h]
  | succ n ih =>
    intro s i h
    obtain ⟨sj, hj, hact⟩ := hfetch i
    simp only [pollRun, h, if_true, hj]
    exact ih sj (i + 1) hact

/-- One iteration of the polling loop: an active status spends one unit of
fuel on the scripted retrieve and continues from its result. -/
theorem pollRun_step (fetch : Nat → Except String String) (fuel i : Nat)
    (s s2 : String) (hs : isActiveStatus s = true)
    (h : fetch i = Except.ok s2) :
    pollRun fetch (fuel + 1) s i = pollRun fetch fuel s2 (i + 1) := by
  simp only [pollRun, hs, if_true, h]

/-- If, starting from an active status with next retrieve index `i`, the
retrieves at indices `i, …, i+k-1` all succeed with active statuses and the
retrieve at index `i+k` succeeds with a non-active status, then with any
fuel of at least `k+1` the poll stops exactly there: it returns that first
non-active status having issued precisely `k+1` further retrieves. -/
theorem pollRun_first_exit (fetch : Nat → Except String String) :
    ∀ (k i : Nat) (s sk : String) (fuel : Nat),
      isActiveStatus s = true →
      (∀ j, j < k → ∃ sj, fetch (i + j) = Except.ok sj ∧ isActiveStatus sj = true) →
      fetch (i + k) = Except.ok sk → isActiveStatus sk = false →
      pollRun fetch (fuel + (k + 1)) s i = Except.ok (some (sk, i + k + 1)) := by
  intro k
  induction k with
  | zero =>
    intro i s sk fuel hs _hact hk hsk
    rw [Nat.add_zero] at hk
    show pollRun fetch (fuel + 1) s i = _
    simp only [pollRun, hs, if_true, hk]
    rw [Nat.add_zero]
    exact pollRun_inactive fetch sk hsk fuel (i + 1)
  | succ k ih =>
    intro i s sk fuel hs hact hk hsk
    obtain ⟨s1, h1, hact1⟩ := hact 0 (Nat.succ_pos k)
    rw [Nat.add_zero] at h1
    rw [show fuel + (k + 1 + 1) = (fuel + (k + 1)) + 1 from by omega,
      pollRun_step fetch (fuel + (k + 1)) i s s1 hs h1]
    have happ : ∀ j, j < k →
        ∃ sj, fetch ((i + 1) + j) = Except.ok sj ∧ isActiveStatus sj = true := by
      intro j hj
      rw [show (i + 1) + j = i + (j + 1) from by omega]
      exact hact (j + 1) (by omega)
    have hk1 : fetch ((i + 1) + k) = Except.ok sk := by
      rw [show (i + 1) + k = i + (k + 1) from by omega]
      exact hk
    rw [ih (i + 1) s1 sk fuel hact1 happ hk1 hsk]
    have heq : i + 1 + k + 1 = i + (k + 1) + 1 := by omega
    rw [heq]

/-- A truthy optional string is a set one. -/
theorem optTruthy_isSome (o : Option String) (h : optTruthy o = true) :
    o.isSome := by
  cases o with
  | none => simp [optTruthy] at h
  | some v => rfl

/-- C1: for the scripted status sequence [queued, in_progress, in_progress,
completed] — the first status delivered by `runs.create`, the rest by
successive retrieves — the polling loop performs exactly 3 retrieves, hence
exactly `statusFetches 3 = 4` status fetches, one per listed status, and
exits with the terminal entry completed.  The fuel is `k + 3` for an
arbitrary `k`, so the count does not depend on the fuel bound. -/
theorem polling_scripted_four_fetches (k : Nat) :
    pollRun (fetchOfList scriptC1) (k + 3) "queued" 0 =
      Except.ok (some ("completed", 3)) ∧ statusFetches 3 = 4 := by
  refine ⟨?_, rfl⟩
  show pollRun (fetchOfList scriptC1) ((k + 2) + 1) "queued" 0 = _
  simp only [pollRun, fetchOfList, scriptC1, isActiveStatus]
  norm_num
  show pollRun (fetchOfList scriptC1) ((k + 1) + 1) "in_progress" 1 = _
  simp only [pollRun, fetchOfList, scriptC1, isActiveStatus]
  norm_num
  show pollRun (fetchOfList scriptC1) (k + 1) "in_progress" 2 = _
  simp only [pollRun, fetchOfList, scriptC1, isActiveStatus]
  norm_num
  exact pollRun_inactive (fetchOfList scriptC1) "completed" rfl k 3

/-- C8: the polling loop continues exactly while the fetched status lies in
the set (queued, in_progress), with no timeout and no iteration bound:
first, if every retrieve stays in that set the loop exhausts any amount of
fuel (it never terminates); second, a status outside the set stops it at
once; third, if the retrieves leave the set for the first time at offset
`k`, then any fuel of at least `k+1` makes the loop stop exactly at that
first non-active status, after exactly `k+1` further retrieves. -/
theorem polling_loop_no_bound (fetch : Nat → Except String String) :
    (∀ fuel s i, isActiveStatus s = true →
        (∀ j, ∃ sj, fetch j = Except.ok sj ∧ isActiveStatus sj = true) →
        pollRun fetch fuel s i = Except.ok none) ∧
    (∀ fuel s i, isActiveStatus s = false →
        pollRun fetch fuel s i = Except.ok (some (s, i))) ∧
    (∀ k i s sk fuel, isActiveStatus s = true →
        (∀ j, j < k → ∃ sj, fetch (i + j) = Except.ok sj ∧ isActiveStatus sj = true) →
        fetch (i + k) = Except.ok sk → isActiveStatus sk = false →
        pollRun fetch (fuel + (k + 1)) s i = Except.ok (some (sk, i + k + 1))) := by
  refine ⟨?_, ?_, ?_⟩
  · intro fuel s i hs hf
    exact pollRun_never_exits fetch hf fuel s i hs
  · intro fuel s i hs
    exact pollRun_inactive fetch s hs fuel i
  · intro k i s sk fuel hs hact hk hsk
    exact pollRun_first_exit fetch k i s sk fuel hs hact hk hsk

/-- Witness for the unbounded-polling statement: a script that stays queued
forever exhausts fuel 7; the inactive status completed stops at once; the
scripted run of `scriptC1` stops at its first non-active status. -/
theorem polling_loop_no_bound_witness :
    pollRun fetchAllQueued 7 "queued" 0 = Except.ok none ∧
    pollRun fetchAllQueued 3 "completed" 5 = Except.ok (some ("completed", 5)) ∧
    pollRun (fetchOfList scriptC1) 3 "queued" 0 =
      Except.ok (some ("completed", 3)) := by
  refine ⟨?_, ?_, ?_⟩
  · exact (polling_loop_no_bound fetchAllQueued).1 7 "queued" 0 rfl
      (fun _j => ⟨"queued", rfl, rfl⟩)
  · exact (polling_loop_no_bound fetchAllQueued).2.1 3 "completed" 5 rfl
  · exact (polling_loop_no_bound (fetchOfList scriptC1)).2.2 2 0 "queued"
      "completed" 0 rfl
      (fun j hj =>
        match j, hj with
        | 0, _ => ⟨"in_progress", rfl, rfl⟩
        | 1, _ => ⟨"in_progress", rfl, rfl⟩
        | n + 2, h => absurd h (by omega))
      rfl rfl

/-- C7: a turn whose run terminates in a status other than completed
produces no reply (`None` is returned), surfaces an error message that
embeds that terminal status, and appends no assistant turn — the local
history gains only the user turn. -/
theorem failed_run_reports_status (env : TurnEnv) (fuel i : Nat)
    (st : String) (hist : List ChatTurn) (prompt : String)
    (hmsg : env.msgCreate = Except.ok ())
    (hrun : ∃ s0, env.runCreate = Except.ok s0 ∧
        pollRun env.retrieve fuel s0 0 = Except.ok (some (st, i)))
    (hst : st ≠ "completed") :
    getAssistantResponse env fuel = some ⟨none, [runFailedMsg st]⟩ ∧
    chatInputHandler hist prompt env fuel =
      some (hist ++ [⟨"user", prompt⟩],
        [runFailedMsg st, "Failed to get response from assistant"]) := by
  obtain ⟨s0, hrc, hpoll⟩ := hrun
  have hbeq : (st == "completed") = false := by
    simp [hst]
  have h1 : getAssistantResponse env fuel = some ⟨none, [runFailedMsg st]⟩ := by
    simp [getAssistantResponse, hmsg, hrc, hpoll, hbeq]
  refine ⟨h1, ?_⟩
  simp [chatInputHandler, h1]

/-- Witness for the failed-run statement at the scripted terminal status
failed. -/
theorem failed_run_reports_status_witness :
    getAssistantResponse envFailedRun 1 = some ⟨none, [runFailedMsg "failed"]⟩ ∧
    chatInputHandler [] "question" envFailedRun 1 =
      some ([⟨"user", "question"⟩],
        [runFailedMsg "failed", "Failed to get response from assistant"]) := by
  have h := failed_run_reports_status envFailedRun 1 0 "failed" [] "question"
    rfl ⟨"failed", rfl, rfl⟩ (by decide)
  simpa using h

/-- C4: a turn execution that fails — `get_assistant_response` terminates
with no reply, be it from an exception in any remote call or from a
non-completed terminal run status — leaves the local history extended by
exactly the one user turn and no assistant turn, with all previous turns
unchanged. -/
theorem aborted_turn_local_effect (env : TurnEnv) (fuel : Nat)
    (hist : List ChatTurn) (prompt : String) (errs : List String)
    (hfail : getAssistantResponse env fuel = some ⟨none, errs⟩) :
    chatInputHandler hist prompt env fuel =
      some (hist ++ [⟨"user", prompt⟩],
        errs ++ ["Failed to get response from assistant"]) := by
  simp [chatInputHandler, hfail]

/-- Witness for the aborted-turn statement: the message append raises, the
prior history keeps its one turn and gains exactly the user turn. -/
theorem aborted_turn_local_effect_witness :
    chatInputHandler [⟨"user", "earlier"⟩] "q" envMsgCreateRaises 0 =
      some ([⟨"user", "earlier"⟩, ⟨"user", "q"⟩],
        [errGettingResponse "connection reset",
          "Failed to get response from assistant"]) := by
  have h := aborted_turn_local_effect envMsgCreateRaises 0
    [⟨"user", "earlier"⟩] "q" [errGettingResponse "connection reset"] rfl
  simpa using h

/-- C2 as stated is false: here is a turn whose run reaches the terminal
status completed after one retrieve and whose most recent remote message
text is the empty string, yet no assistant turn is appended — the handler
tests the reply for Python truthiness, and the empty string fails it. -/
theorem completed_run_empty_reply_no_append :
    pollRun envEmptyReply.retrieve 2 "queued" 0 =
      Except.ok (some ("completed", 1)) ∧
    envEmptyReply.listMessages = Except.ok [""] ∧
    chatInputHandler [] "q" envEmptyReply 2 =
      some ([⟨"user", "q"⟩], ["Failed to get response from assistant"]) := by
  exact ⟨rfl, rfl, rfl⟩

/-- C2 amended: a turn whose run reaches completed, whose message listing
succeeds and whose most recent entry has a truthy (non-empty) text appends
exactly one assistant turn carrying exactly that text. -/
theorem completed_run_truthy_reply_appends (env : TurnEnv) (fuel i : Nat)
    (hist : List ChatTurn) (prompt t : String) (l : List String)
    (hmsg : env.msgCreate = Except.ok ())
    (hrun : ∃ s0, env.runCreate = Except.ok s0 ∧
        pollRun env.retrieve fuel s0 0 = Except.ok (some ("completed", i)))
    (hlist : env.listMessages = Except.ok l)
    (hhead : l.head? = some t)
    (ht : strTruthy t = true) :
    getAssistantResponse env fuel = some ⟨some t, []⟩ ∧
    chatInputHandler hist prompt env fuel =
      some (hist ++ [⟨"user", prompt⟩, ⟨"assistant", t⟩], []) := by
  obtain ⟨s0, hrc, hpoll⟩ := hrun
  have h1 : getAssistantResponse env fuel = some ⟨some t, []⟩ := by
    simp [getAssistantResponse, hmsg, hrc, hpoll, hlist, hhead]
  refine ⟨h1, ?_⟩
  simp [chatInputHandler, h1, ht]

/-- Witness for the amended completed-run statement. -/
theorem completed_run_truthy_reply_appends_witness :
    getAssistantResponse envGoodReply 2 = some ⟨some "grounded answer", []⟩ ∧
    chatInputHandler [] "q" envGoodReply 2 =
      some ([⟨"user", "q"⟩, ⟨"assistant", "grounded answer"⟩], []) := by
  have h := completed_run_truthy_reply_appends envGoodReply 2 1 [] "q"
    "grounded answer" ["grounded answer", "earlier message"] rfl
    ⟨"queued", rfl, rfl⟩ rfl rfl rfl
  simpa using h

/-- C10: a run that completes with an empty most recent remote message text
is treated as a failure at the public interface: the reply (the empty
string) fails the truthiness test, no assistant turn is appended, and the
failure message is shown. -/
theorem completed_run_empty_text_fails (env : TurnEnv) (fuel i : Nat)
    (hist : List ChatTurn) (prompt : String) (l : List String)
    (hmsg : env.msgCreate = Except.ok ())
    (hrun : ∃ s0, env.runCreate = Except.ok s0 ∧
        pollRun env.retrieve fuel s0 0 = Except.ok (some ("completed", i)))
    (hlist : env.listMessages = Except.ok l)
    (hhead : l.head? = some "") :
    getAssistantResponse env fuel = some ⟨some "", []⟩ ∧
    chatInputHandler hist prompt env fuel =
      some (hist ++ [⟨"user", prompt⟩],
        ["Failed to get response from assistant"]) := by
  obtain ⟨s0, hrc, hpoll⟩ := hrun
  have h1 : getAssistantResponse env fuel = some ⟨some "", []⟩ := by
    simp [getAssistantResponse, hmsg, hrc, hpoll, hlist, hhead]
  refine ⟨h1, ?_⟩
  simp [chatInputHandler, h1, show strTruthy "" = false from rfl]

/-- Witness for the empty-text statement. -/
theorem completed_run_empty_text_fails_witness :
    getAssistantResponse envEmptyReply 2 = some ⟨some "", []⟩ ∧
    chatInputHandler [] "q" envEmptyReply 2 =
      some ([⟨"user", "q"⟩], ["Failed to get response from assistant"]) := by
  have h := completed_run_empty_text_fails envEmptyReply 2 1 [] "q" [""]
    rfl ⟨"queued", rfl, rfl⟩ rfl rfl
  simpa using h

/-- C5: when the vector store creation or the file upload raises, index
provisioning reports the error and returns `None`, the whole session state
is unchanged — so the index handle stays exactly as it was, unset if it was
unset — and the setup handler stops there: neither assistant creation nor
thread creation touches the state, and the generic upload failure is also
surfaced. -/
theorem upload_failure_halts_setup (env : SetupEnv) (s : SessionState)
    (hfail : (∃ e, env.vsCreate = Except.error e) ∨
      (∃ e, env.uploadBatch = Except.error e)) :
    ∃ m, upload_files_to_vector_store env s =
        (s, none, ["Error uploading files: " ++ m]) ∧
      setupHandler env s =
        (s, ["Error uploading files: " ++ m, "Failed to upload files"]) := by
  cases hv : env.vsCreate with
  | error e =>
    refine ⟨e, ?_, ?_⟩
    · simp [upload_files_to_vector_store, hv]
    · simp [setupHandler, upload_files_to_vector_store, hv, optTruthy]
  | ok vsid =>
    rcases hfail with ⟨e, he⟩ | ⟨e, he⟩
    · rw [hv] at he
      exact absurd he (by simp)
    · refine ⟨e, ?_, ?_⟩
      · simp [upload_files_to_vector_store, hv, he]
      · simp [setupHandler, upload_files_to_vector_store, hv, he, optTruthy]

/-- Witness for the upload-failure statement: a raised vector store
creation leaves the initial state untouched. -/
theorem upload_failure_halts_setup_witness :
    ∃ m, upload_files_to_vector_store envVsCreateRaises initState =
        (initState, none, ["Error uploading files: " ++ m]) ∧
      setupHandler envVsCreateRaises initState =
        (initState, ["Error uploading files: " ++ m, "Failed to upload files"]) :=
  upload_failure_halts_setup envVsCreateRaises initState
    (Or.inl ⟨"quota exceeded", rfl⟩)

/-- C6 as stated is false: when the thread creation raised during a clear
chat, the history is emptied but the conversation handle is not replaced —
the session keeps the very handle it held before, against the claim that
every invocation installs a fresh, different handle. -/
theorem clear_chat_failure_keeps_old_handle :
    (clearChatHandler envThreadRaises sReady).messages = [] ∧
    (clearChatHandler envThreadRaises sReady).thread_id = some "thread_1" ∧
    sReady.thread_id = some "thread_1" := by
  exact ⟨rfl, rfl, rfl⟩

/-- C6 amended: every clear chat invocation empties the local history; when
the thread creation succeeds the conversation handle is replaced by the
newly returned handle with no error (hence differs from the old one
whenever the service returns a fresh id), and when it raises the error
message of line 110 is reported and the previous handle is retained.  The
state component of `clearChatResult` is exactly the `clearChatHandler`
state the rest of the development uses. -/
theorem clear_chat_empties_and_replaces (env : SetupEnv) (s : SessionState) :
    (clearChatResult env s).1 = clearChatHandler env s ∧
    (clearChatResult env s).1.messages = [] ∧
    (∀ t, env.threadCreate = Except.ok t →
      (clearChatResult env s).1.thread_id = some t ∧
      (clearChatResult env s).2 = []) ∧
    (∀ e, env.threadCreate = Except.error e →
      (clearChatResult env s).1.thread_id = s.thread_id ∧
      (clearChatResult env s).2 = ["Error creating thread: " ++ e]) := by
  refine ⟨?_, ?_, ?_, ?_⟩
  · cases ht : env.threadCreate <;>
      simp [clearChatResult, clearChatHandler, create_thread, ht]
  · cases ht : env.threadCreate <;>
      simp [clearChatResult, create_thread, ht]
  · intro t ht
    simp [clearChatResult, create_thread, ht]
  · intro e ht
    simp [clearChatResult, create_thread, ht]

/-- Witness for the amended clear chat statement: a successful thread
creation installs the new handle, a raised one reports the thread-creation
error and keeps the old handle. -/
theorem clear_chat_empties_and_replaces_witness :
    (clearChatResult envAllOk sReady).1.messages = [] ∧
    (clearChatResult envAllOk sReady).1.thread_id = some "thread_new" ∧
    (clearChatResult envThreadRaises sReady).1.thread_id = sReady.thread_id ∧
    (clearChatResult envThreadRaises sReady).2 =
      ["Error creating thread: " ++ "service unavailable"] := by
  exact ⟨(clear_chat_empties_and_replaces envAllOk sReady).2.1,
    ((clear_chat_empties_and_replaces envAllOk sReady).2.2.1 "thread_new" rfl).1,
    ((clear_chat_empties_and_replaces envThreadRaises sReady).2.2.2
      "service unavailable" rfl).1,
    ((clear_chat_empties_and_replaces envThreadRaises sReady).2.2.2
      "service unavailable" rfl).2⟩

/-- The setup handler preserves the handle ordering: each stage writes only
its own handle, and a later handle is written only after the earlier ones
were stored in this or an earlier invocation. -/
theorem setupHandler_preserves_order (env : SetupEnv) (s : SessionState)
    (h : handlesOrdered s) : handlesOrdered (setupHandler env s).1 := by
  obtain ⟨h1, h2⟩ := h
  simp only [setupHandler, upload_files_to_vector_store, create_assistant,
    create_thread]
  cases hv : env.vsCreate <;> cases hu : env.uploadBatch <;>
    cases ha : env.assistantCreate <;> cases ht : env.threadCreate <;>
    simp only [optTruthy] <;> split_ifs <;>
    simp_all [handlesOrdered]

/-- One UI event preserves the handle ordering: setup by the lemma above,
a chat turn touches only the history, and clear chat writes the thread
handle only behind the guard that already requires a truthy assistant
handle. -/
theorem step_preserves_order (s : SessionState) (op : Op)
    (h : handlesOrdered s) : handlesOrdered (step s op) := by
  cases op with
  | setup env => exact setupHandler_preserves_order env s h
  | chat prompt env fuel =>
    simp only [step]
    split
    · cases hch : chatInputHandler s.messages prompt env fuel with
      | none => exact h
      | some p =>
        obtain ⟨hist, errs⟩ := p
        exact ⟨h.1, h.2⟩
    · exact h
  | clear env =>
    simp only [step]
    split
    · rename_i hen
      obtain ⟨h1, h2⟩ := h
      rw [chatUIEnabled, Bool.and_eq_true] at hen
      have hassist : s.assistant_id.isSome := optTruthy_isSome _ hen.1
      simp only [clearChatHandler, create_thread]
      cases ht : env.threadCreate with
      | error e => exact ⟨h1, h2⟩
      | ok tid => exact ⟨h1, fun _ => hassist⟩
    · exact h

/-- C3: after any sequence of UI events from the initial state — in
particular any sequence of setup invocations in which some step fails — the
set of set handles is a prefix of the ordered triple (vector store,
assistant, thread): the assistant handle is never set while the vector
store handle is unset, and the thread handle is never set while the
assistant handle is unset.  Since this holds of every sequence, it holds at
every intermediate point of a longer run as well. -/
theorem handles_form_ordered_chain (ops : List Op) :
    handlesOrdered (runApp ops) := by
  have hgen : ∀ s, handlesOrdered s → handlesOrdered (ops.foldl step s) := by
    induction ops with
    | nil => intro s hs; exact hs
    | cons op rest ih =>
      intro s hs
      exact ih (step s op) (step_preserves_order s op hs)
  exact hgen initState ⟨fun hc => hc, fun hc => hc⟩

/-- One UI event never resets a handle: each handler writes only `some`
values into the three handle fields, so a set handle stays set. -/
theorem step_handles_stay_set (s : SessionState) (op : Op) :
    (s.vector_store_id.isSome → (step s op).vector_store_id.isSome) ∧
    (s.assistant_id.isSome → (step s op).assistant_id.isSome) ∧
    (s.thread_id.isSome → (step s op).thread_id.isSome) := by
  cases op with
  | setup env =>
    simp only [step, setupHandler, upload_files_to_vector_store,
      create_assistant, create_thread]
    cases hv : env.vsCreate <;> cases hu : env.uploadBatch <;>
      cases ha : env.assistantCreate <;> cases ht : env.threadCreate <;>
      simp only [optTruthy] <;> split_ifs <;> simp_all
  | chat prompt env fuel =>
    simp only [step]
    split
    · cases hch : chatInputHandler s.messages prompt env fuel with
      | none => simp
      | some p =>
        obtain ⟨hist, errs⟩ := p
        simp
    · simp
  | clear env =>
    simp only [step]
    split
    · simp only [clearChatHandler, create_thread]
      cases ht : env.threadCreate with
      | error e => simp
      | ok tid => simp
    · simp

/-- Under service calls that only return truthy (non-empty) ids, one UI
event also preserves the truthiness of each stored handle: the status panel
readiness of a handle is never revoked. -/
theorem step_handles_stay_truthy (s : SessionState) (op : Op)
    (hop : opServiceIdsTruthy op = true) :
    (optTruthy s.vector_store_id = true →
      optTruthy (step s op).vector_store_id = true) ∧
    (optTruthy s.assistant_id = true →
      optTruthy (step s op).assistant_id = true) ∧
    (optTruthy s.thread_id = true →
      optTruthy (step s op).thread_id = true) := by
  cases op with
  | setup env =>
    simp only [opServiceIdsTruthy, Bool.and_eq_true] at hop
    obtain ⟨⟨hv, ha⟩, ht⟩ := hop
    simp only [step, setupHandler, upload_files_to_vector_store,
      create_assistant, create_thread]
    cases hvc : env.vsCreate <;> cases huc : env.uploadBatch <;>
      cases hac : env.assistantCreate <;> cases htc : env.threadCreate <;>
      simp_all [exceptTruthy, optTruthy]
  | chat prompt env fuel =>
    simp only [step]
    split
    · cases hch : chatInputHandler s.messages prompt env fuel with
      | none => simp
      | some p =>
        obtain ⟨hist, errs⟩ := p
        simp
    · simp
  | clear env =>
    simp only [opServiceIdsTruthy] at hop
    simp only [step]
    split
    · simp only [clearChatHandler, create_thread]
      cases ht : env.threadCreate with
      | error e => simp
      | ok tid => simp_all [exceptTruthy, optTruthy]
    · simp

/-- C9: each of the three handles is monotone over any run of UI events
from any state: once set, no operation — a failed re-run of setup and a
failed thread creation during clear chat included, since failure branches
leave the stored value unchanged — ever resets it to unset.  Moreover,
when the scripted service calls only return truthy ids (the service never
hands out an empty identifier), a handle the status panel shows as ready
stays shown as ready. -/
theorem handles_monotone (ops : List Op) (s : SessionState) :
    ((s.vector_store_id.isSome → (ops.foldl step s).vector_store_id.isSome) ∧
     (s.assistant_id.isSome → (ops.foldl step s).assistant_id.isSome) ∧
     (s.thread_id.isSome → (ops.foldl step s).thread_id.isSome)) ∧
    ((∀ op ∈ ops, opServiceIdsTruthy op = true) →
      ((statusPanel s).1 = true → (statusPanel (ops.foldl step s)).1 = true) ∧
      ((statusPanel s).2.1 = true → (statusPanel (ops.foldl step s)).2.1 = true) ∧
      ((statusPanel s).2.2 = true → (statusPanel (ops.foldl step s)).2.2 = true)) := by
  induction ops generalizing s with
  | nil =>
    exact ⟨⟨fun h => h, fun h => h, fun h => h⟩,
      fun _ => ⟨fun h => h, fun h => h, fun h => h⟩⟩
  | cons op rest ih =>
    obtain ⟨m1, m2, m3⟩ := step_handles_stay_set s op
    refine ⟨?_, ?_⟩
    · obtain ⟨⟨r1, r2, r3⟩, _⟩ := ih (step s op)
      exact ⟨fun h => r1 (m1 h), fun h => r2 (m2 h), fun h => r3 (m3 h)⟩
    · intro hall
      have hop := hall op (List.mem_cons_self op rest)
      have hrest : ∀ o ∈ rest, opServiceIdsTruthy o = true :=
        fun o ho => hall o (List.mem_cons_of_mem op ho)
      obtain ⟨t1, t2, t3⟩ := step_handles_stay_truthy s op hop
      obtain ⟨_, hpanel⟩ := ih (step s op)
      obtain ⟨p1, p2, p3⟩ := hpanel hrest
      exact ⟨fun h => p1 (t2 h), fun h => p2 (t3 h), fun h => p3 (t1 h)⟩

/-- Witness for the monotonicity statement: a failed re-run of setup over a
fully provisioned session leaves the vector store handle set and the status
panel all ready. -/
theorem handles_monotone_witness :
    ([Op.setup envVsCreateRaises].foldl step sReady).vector_store_id.isSome ∧
    (statusPanel ([Op.setup envVsCreateRaises].foldl step sReady)).1 = true ∧
    (statusPanel ([Op.setup envVsCreateRaises].foldl step sReady)).2.1 = true ∧
    (statusPanel ([Op.setup envVsCreateRaises].foldl step sReady)).2.2 = true := by
  obtain ⟨⟨m1, _, _⟩, hpanel⟩ := handles_monotone [Op.setup envVsCreateRaises] sReady
  have hall : ∀ op ∈ [Op.setup envVsCreateRaises], opServiceIdsTruthy op = true := by
    intro op hop
    rw [List.mem_singleton] at hop
    subst hop
    rfl
  obtain ⟨p1, p2, p3⟩ := hpanel hall
  exact ⟨m1 rfl, p1 rfl, p2 rfl, p3 rfl⟩
